import Mathlib

/-!
# docker-ssh-build: a shallow embedding of `main.go`

The program packs the working directory with `tar`, serves the scratch
directory over HTTP, builds the image on a remote host through an ssh reverse
tunnel, copies the image back with `docker save`, and loads it locally.

Everything the program does is an interaction with the operating system, so
the embedding threads an explicit `World` (terminal mode, files of the scratch
area, the cancellation context, and the trace of observable events) through
each Go function, and takes the answers of the outside world (does the
pseudo-terminal start, how does the command terminate, does a signal arrive,
does the content server fail) from an `Env` record.  The Go control flow is
kept statement by statement: `os.Exit` ends the process without running
deferred calls, a normal return and a panic both run them.  The command line
goes through a model of `flag.Parse()`, whose own exits come before the test
of `init`.  The content-server goroutine is the one piece of concurrency that
can end the process: its `os.Exit(1)` cuts the run of the main goroutine after
a number of events given by the environment.
-/

namespace DockerSshBuild

/-! ## Data model -/

/-- Mode of the invoking terminal (the file descriptor of `os.Stdin`). -/
inductive TermMode where
  | cooked
  | raw
  deriving DecidableEq, Repr

/-- How an external process terminates: with an exit status, or killed by a
signal (which is what `exec.CommandContext` does once its context is done). -/
inductive ProcStatus where
  | exited (code : Nat)
  | signaled
  deriving DecidableEq, Repr

/-- Origin of a Go `error` value travelling through the program. -/
inductive GoErr where
  | mkdirTemp
  | ptyStart
  | makeRaw
  | osCreate
  | cmdRun
  | listen
  deriving DecidableEq, Repr

/-- Result of a Go function of type `func(...) error` that may also panic. -/
inductive Result where
  | nil
  | err (e : GoErr)
  | panic (e : GoErr)
  deriving DecidableEq, Repr

/-- Observable actions of the process, in the order they happen. -/
inductive Event where
  | echo (line : String)
  | start (args : List String)
  | mkdirTemp (dir : String)
  | create (path : String)
  | listen (addr : String) (root : String)
  | removeAll (dir : String)
  | makeRaw
  | restore
  | interrupt
  | usage
  | logMsg (msg : String)
  | logErr (e : GoErr)
  deriving DecidableEq, Repr

/-- The mutable part of the world as it stands right after an event. -/
structure Snap where
  term : TermMode
  files : List String
  ctxDone : Bool
  deriving DecidableEq, Repr

/-- State of the outside world as far as the program touches it.  `history`
runs parallel to `trace`: its entry number `i` is the state right after event
number `i`, which is what the world looks like if the process is ended
there. -/
structure World where
  term : TermMode
  files : List String
  ctxDone : Bool
  trace : List Event
  history : List Snap
  deriving DecidableEq, Repr

/-- Answers of the outside world to one `execCommand` call. -/
structure RelayEnv where
  ptyStartOk : Bool
  makeRawOk : Bool
  restoreOk : Bool
  status : ProcStatus
  interrupt : Bool
  deriving DecidableEq, Repr

/-- Answers of the outside world to one `cmd.Run()` call. -/
structure RunEnv where
  startOk : Bool
  status : ProcStatus
  interrupt : Bool
  deriving DecidableEq, Repr

/-- Answers of the outside world to one run of the process.  `mkdirTemp` is
the random number `os.MkdirTemp` puts in place of the `*` of its pattern, or
`none` when the directory cannot be created.  `listen` is the fate of
`http.ListenAndServe`: `none` when it keeps serving until the process ends,
`some k` when it returns an error (the address is taken, say) and the
`os.Exit(1)` of its goroutine takes effect once the main goroutine has gone
through `k` more events after launching it. -/
structure Env where
  mkdirTemp : Option Nat
  tar : RelayEnv
  listen : Option Nat
  build : RelayEnv
  createImage : Bool
  save : RunEnv
  load : RelayEnv
  deriving DecidableEq, Repr

/-- What `flag.Parse()` makes of the command line: every argument accepted,
`-h` or `-help` met, or an argument rejected.  `host` and `tag` are the values
of the two flag variables at that moment. -/
inductive FlagParse where
  | ok (host tag : String)
  | help (host tag : String)
  | failed (host tag : String)
  deriving DecidableEq, Repr

/-- Value of the variable `*host`. -/
def FlagParse.host : FlagParse → String
  | .ok h _ => h
  | .help h _ => h
  | .failed h _ => h

/-- Value of the variable `*tag`. -/
def FlagParse.tag : FlagParse → String
  | .ok _ t => t
  | .help _ t => t
  | .failed _ t => t

/-- How the process ends: `os.Exit(code)`, a normal return of `main`, or an
unrecovered panic. -/
inductive Exit where
  | osExit (code : Nat)
  | returned
  | panicked
  deriving DecidableEq, Repr

/-- Exit status seen by the parent process.  A Go program whose `main`
returns exits with 0, and the Go runtime ends a process that panics with
status 2. -/
def Exit.status : Exit → Nat
  | .osExit code => code
  | .returned => 0
  | .panicked => 2

/-! ## World primitives -/

/-- Append one event to the trace, and the state it leaves to the history. -/
def World.emit (w : World) (e : Event) : World :=
  { w with trace := w.trace ++ [e],
           history := w.history ++ [{ term := w.term, files := w.files, ctxDone := w.ctxDone }] }

/-- The world as it stood after its first `i` events. -/
def World.rewind (w : World) (i : Nat) : World :=
  match (w.history.take i).getLast? with
  | some s =>
    { term := s.term, files := s.files, ctxDone := s.ctxDone, trace := w.trace.take i,
      history := w.history.take i }
  | none => { w with trace := w.trace.take i, history := w.history.take i }

/-- Add a path to the file system (`os.Create`, `os.MkdirTemp`). -/
def World.addFile (w : World) (p : String) : World :=
  { w with files := if p ∈ w.files then w.files else p :: w.files }

/-- Whether `p` is `dir` itself or lies below it. -/
def under (dir p : String) : Bool :=
  p == dir || (dir ++ "/").data.isPrefixOf p.data

/-- Effect of `os.RemoveAll(dir)`: the directory and all it contains go. -/
def World.removeAll (w : World) (dir : String) : World :=
  { w with files := w.files.filter (fun p => !under dir p) }.emit (.removeAll dir)

/-- Name produced by `os.MkdirTemp("/tmp", "docker-ssh-build-*")` when the
random number drawn is `n`. -/
def tempDirName (n : Nat) : String :=
  "/tmp/docker-ssh-build-" ++ toString n

/-- Go's `filepath.Join(dir, name)` for the arguments this program passes: `dir`
is the clean absolute name returned by `os.MkdirTemp` and `name` a single
file name, so the result is the two joined by one separator. -/
def filepathJoin (dir name : String) : String :=
  dir ++ "/" ++ name

/-- Go's `strings.Join(args, " ")`. -/
def joinArgs (args : List String) : String :=
  " ".intercalate args

/-- Address the content server listens on (`http.ListenAndServe`). -/
def serverAddr : String := "127.0.0.1:8080"

/-! ## The program -/

/-! ### `flag.Parse()` for the flag set of this program

Modelled on the Go standard library (`flag.FlagSet.parseOne` and `Parse` with
`ExitOnError`), for the two string flags `-host` and `-tag`. -/

/-- What one command-line argument is to the flag package. -/
inductive ArgKind where
  | nonFlag
  | terminator
  | bad
  | flag (name : List Char) (value : Option (List Char))
  deriving DecidableEq, Repr

/-- Split `name=value` at the first `=`. -/
def splitEq : List Char → List Char × Option (List Char)
  | [] => ([], none)
  | c :: r => if c = '=' then ([], some r) else ((c :: (splitEq r).1), (splitEq r).2)

/-- The flag named by an argument whose dashes have been removed. -/
def flagOfName : List Char → ArgKind
  | [] => .bad
  | c :: r => if c = '-' ∨ c = '=' then .bad else .flag (c :: (splitEq r).1) (splitEq r).2

/-- Classify an argument: anything shorter than two characters or not starting
with `-` ends the flags, `--` ends them too, one or two dashes introduce a
flag name. -/
def classifyArg : List Char → ArgKind
  | '-' :: c :: rest =>
    if c = '-' then
      match rest with
      | [] => .terminator
      | _ => flagOfName rest
    else flagOfName (c :: rest)
  | _ => .nonFlag

/-- Outcome of `parseOne`: parsing is over, or a flag has been set and one or
two arguments have been used up. -/
inductive ParseStep where
  | done (r : FlagParse)
  | one (host tag : String)
  | two (host tag : String)
  deriving DecidableEq, Repr

/-- Go `parseOne` on the argument `s`, `next` being the argument after it if
there is one, `host` and `tag` the current values of the flag variables.  A
string flag takes its value after `=` or from the next argument; an undefined
flag is an error unless it is `h` or `help`. -/
def parseOne (s : String) (next : Option String) (host tag : String) : ParseStep :=
  match classifyArg s.data with
  | .nonFlag => .done (.ok host tag)
  | .terminator => .done (.ok host tag)
  | .bad => .done (.failed host tag)
  | .flag name value =>
    if name = ['h', 'o', 's', 't'] then
      match value, next with
      | some v, _ => .one (String.mk v) tag
      | none, some v => .two v tag
      | none, none => .done (.failed host tag)
    else if name = ['t', 'a', 'g'] then
      match value, next with
      | some v, _ => .one host (String.mk v)
      | none, some v => .two host v
      | none, none => .done (.failed host tag)
    else if name = ['h'] ∨ name = ['h', 'e', 'l', 'p'] then .done (.help host tag)
    else .done (.failed host tag)

/-- The loop of Go `FlagSet.Parse`: `parseOne` until the arguments are used up,
a non-flag is met, or an error occurs. -/
def parseArgs : List String → String → String → FlagParse
  | [], host, tag => .ok host tag
  | [s], host, tag =>
    match parseOne s none host tag with
    | .done r => r
    | .one h t => .ok h t
    | .two h t => .ok h t
  | s :: v :: rest, host, tag =>
    match parseOne s (some v) host tag with
    | .done r => r
    | .one h t => parseArgs (v :: rest) h t
    | .two h t => parseArgs rest h t

/-- Go `flag.Parse()` on the arguments after the program name; both flags
default to the empty string. -/
def flagParse (args : List String) : FlagParse :=
  parseArgs args "" ""

/-- Go `init`: `flag.Parse()` ends the process by itself with status 0 on
`-h` and with status 2 on an argument it rejects; with the command line
accepted, the process exits with status 2 when host or tag is empty. -/
def init (p : FlagParse) (w : World) : World × Option Exit :=
  match p with
  | .help _ _ => (w.emit .usage, some (.osExit 0))
  | .failed _ _ => (w.emit .usage, some (.osExit 2))
  | .ok host tag =>
    if host = "" ∨ tag = "" then
      (w.emit (.logMsg "host or tag is empty"), some (.osExit 2))
    else
      (w, none)

/-- Go `execCommand(c)` for a command with arguments `args`.

The command line is echoed, the command is started on a pseudo-terminal
(`exec.CommandContext` refuses to start once the context is done), the
terminal is switched to raw mode (a failure panics), output is copied until
the pseudo-terminal closes, and the deferred `term.Restore` runs, its error
discarded.  The function never waits for the command, so `e.status` is not
read. -/
def execCommand (args : List String) (e : RelayEnv) (w : World) : World × Result :=
  let w := w.emit (.echo ("$ " ++ joinArgs args))
  if w.ctxDone || !e.ptyStartOk then
    (w, .err .ptyStart)
  else
    let w := w.emit (.start args)
    if !e.makeRawOk then
      (w, .panic .makeRaw)
    else
      let oldState := w.term
      let w := { w with term := .raw }.emit .makeRaw
      let w := if e.interrupt then { w with ctxDone := true }.emit .interrupt else w
      let w := (if e.restoreOk then { w with term := oldState } else w).emit .restore
      (w, .nil)

/-- Arguments of the archive command. -/
def createTarballArgs (tempDir : String) : List String :=
  ["tar", "-czf", filepathJoin tempDir "ctx.tar.gz", "."]

/-- Go `createTarball(ctx, tempDir)`. -/
def createTarball (tempDir : String) (e : RelayEnv) (w : World) : World × Result :=
  execCommand (createTarballArgs tempDir) e w

/-- Arguments of the tunnel build command. -/
def buildFromTarballRemotelyArgs (host tag : String) : List String :=
  ["ssh", "-t", "-R", "50218:localhost:8080", host, "docker", "build", "-t", tag,
    "http://127.0.0.1:50218/ctx.tar.gz"]

/-- Go `buildFromTarballRemotely(ctx)`. -/
def buildFromTarballRemotely (host tag : String) (e : RelayEnv) (w : World) :
    World × Result :=
  execCommand (buildFromTarballRemotelyArgs host tag) e w

/-- Arguments of the transfer command. -/
def copyImageFromRemoteArgs (host tag : String) : List String :=
  ["ssh", host, "docker", "save", tag]

/-- Go `copyImageFromRemote(ctx, tempDir)`: `image.tar` is created first, the
command line is echoed, and `cmd.Run()` reports a start failure, a non-zero
exit status and a kill by signal as an error. -/
def copyImageFromRemote (host tag tempDir : String) (createOk : Bool) (e : RunEnv)
    (w : World) : World × Result :=
  let args := copyImageFromRemoteArgs host tag
  let path := filepathJoin tempDir "image.tar"
  if !createOk then
    (w, .err .osCreate)
  else
    let w := (w.addFile path).emit (.create path)
    let w := w.emit (.echo ("$ " ++ joinArgs args ++ " > " ++ path))
    if w.ctxDone || !e.startOk then
      (w, .err .cmdRun)
    else
      let w := w.emit (.start args)
      let w := if e.interrupt then { w with ctxDone := true }.emit .interrupt else w
      let st := if e.interrupt then ProcStatus.signaled else e.status
      if st = .exited 0 then (w, .nil) else (w, .err .cmdRun)

/-- Arguments of the import command. -/
def loadCopiedImageTarballArgs (tempDir : String) : List String :=
  ["docker", "load", "-i", filepathJoin tempDir "image.tar"]

/-- Go `loadCopiedImageTarball(ctx, tempDir)`. -/
def loadCopiedImageTarball (tempDir : String) (e : RelayEnv) (w : World) :
    World × Result :=
  execCommand (loadCopiedImageTarballArgs tempDir) e w

/-- What `main` does with the result of a stage: `os.Exit(1)` after logging an
error (deferred calls are skipped), unwinding with the deferred
`os.RemoveAll(tempDir)` on a panic, and going on with `next` otherwise. -/
def afterStage (tempDir : String) (r : World × Result) (next : World → World × Exit) :
    World × Exit :=
  match r with
  | (w, .err e) => (w.emit (.logErr e), .osExit 1)
  | (w, .panic _) => (w.removeAll tempDir, .panicked)
  | (w, .nil) => next w

/-- The statements of Go `main` as the main goroutine runs them when nothing
else ends the process.  The `go` statement that launches the content server is
recorded by its `listen` event. -/
def mainGoroutine (host tag : String) (env : Env) (w : World) : World × Exit :=
  match env.mkdirTemp with
  | none => (w.emit (.logErr .mkdirTemp), .osExit 1)
  | some n =>
    let tempDir := tempDirName n
    let w := (w.addFile tempDir).emit (.mkdirTemp tempDir)
    afterStage tempDir (createTarball tempDir env.tar w) fun w =>
      let w := w.emit (.listen serverAddr tempDir)
      afterStage tempDir (buildFromTarballRemotely host tag env.build w) fun w =>
        afterStage tempDir (copyImageFromRemote host tag tempDir env.createImage env.save w)
          fun w =>
            afterStage tempDir (loadCopiedImageTarball tempDir env.load w) fun w =>
              (w.removeAll tempDir, .returned)

/-- Number of events up to and including the launch of the content server. -/
def launchIndex : List Event → Option Nat
  | [] => none
  | .listen _ _ :: _ => some 1
  | _ :: rest => (launchIndex rest).map (· + 1)

/-- Go `main`: the main goroutine together with the content-server goroutine
it launches.  When `http.ListenAndServe` returns an error, that goroutine logs
it and calls `os.Exit(1)`; with `env.listen = some k` this happens after the
main goroutine has gone through `k` more events, provided it has not ended the
process by itself before.  The world is then the one of that moment, and no
deferred call runs. -/
def main (host tag : String) (env : Env) (w : World) : World × Exit :=
  let r := mainGoroutine host tag env w
  match env.listen, launchIndex r.1.trace with
  | some k, some i =>
    if i + k < r.1.trace.length then
      ((r.1.rewind (i + k)).emit (.logErr .listen), .osExit 1)
    else r
  | _, _ => r

/-- The whole process: `init`, then `main`. -/
def runProcess (p : FlagParse) (env : Env) (w : World) : World × Exit :=
  match init p w with
  | (w, some x) => (w, x)
  | (w, none) => main p.host p.tag env w

/-- A fresh world: cooked terminal, empty scratch area, context not done. -/
def World.initial : World :=
  { term := .cooked, files := [], ctxDone := false, trace := [], history := [] }

/-! ## Observations on traces -/

/-- The lines echoed, in order. -/
def echoes (t : List Event) : List String :=
  t.filterMap fun e => match e with
    | .echo l => some l
    | _ => none

/-- The commands started, in order. -/
def started (t : List Event) : List (List String) :=
  t.filterMap fun e => match e with
    | .start a => some a
    | _ => none

/-- The files created by the process itself, in order. -/
def created (t : List Event) : List String :=
  t.filterMap fun e => match e with
    | .create p => some p
    | _ => none

/-- The content servers started, as (address, root). -/
def servers (t : List Event) : List (String × String) :=
  t.filterMap fun e => match e with
    | .listen a r => some (a, r)
    | _ => none

/-- The scratch directories created. -/
def scratchDirs (t : List Event) : List String :=
  t.filterMap fun e => match e with
    | .mkdirTemp d => some d
    | _ => none

/-- A good relay answer: the command starts, raw mode works, the command exits
with `code`, no signal arrives. -/
def RelayEnv.exits (code : Nat) : RelayEnv :=
  { ptyStartOk := true, makeRawOk := true, restoreOk := true,
    status := .exited code, interrupt := false }

/-- A good `cmd.Run()` answer with exit status `code`. -/
def RunEnv.exits (code : Nat) : RunEnv :=
  { startOk := true, status := .exited code, interrupt := false }

/-- The environment of scenario A: every collaborator succeeds. -/
def Env.allOk (n : Nat) : Env :=
  { mkdirTemp := some n, tar := .exits 0, listen := none, build := .exits 0,
    createImage := true, save := .exits 0, load := .exits 0 }

/-! ## Program points of `main`

The world in which `main` calls each stage, and the result the stage returns
there. -/

/-- World right after `os.MkdirTemp`, where `createTarball` is called. -/
def worldAtArchive (n : Nat) : World :=
  (World.initial.addFile (tempDirName n)).emit (.mkdirTemp (tempDirName n))

/-- Result of the archive stage. -/
def archiveResult (n : Nat) (env : Env) : Result :=
  (createTarball (tempDirName n) env.tar (worldAtArchive n)).2

/-- World where `buildFromTarballRemotely` is called: the archive stage is
over and the content server goroutine has been launched. -/
def worldAtBuild (n : Nat) (env : Env) : World :=
  (createTarball (tempDirName n) env.tar (worldAtArchive n)).1.emit
    (.listen serverAddr (tempDirName n))

/-- Result of the build stage. -/
def buildResult (host tag : String) (n : Nat) (env : Env) : Result :=
  (buildFromTarballRemotely host tag env.build (worldAtBuild n env)).2

/-- World where `copyImageFromRemote` is called. -/
def worldAtTransfer (host tag : String) (n : Nat) (env : Env) : World :=
  (buildFromTarballRemotely host tag env.build (worldAtBuild n env)).1

/-- Result of the transfer stage. -/
def transferResult (host tag : String) (n : Nat) (env : Env) : Result :=
  (copyImageFromRemote host tag (tempDirName n) env.createImage env.save
    (worldAtTransfer host tag n env)).2

/-- World where `loadCopiedImageTarball` is called. -/
def worldAtImport (host tag : String) (n : Nat) (env : Env) : World :=
  (copyImageFromRemote host tag (tempDirName n) env.createImage env.save
    (worldAtTransfer host tag n env)).1

/-- Result of the import stage. -/
def importResult (host tag : String) (n : Nat) (env : Env) : Result :=
  (loadCopiedImageTarball (tempDirName n) env.load (worldAtImport host tag n env)).2

/-- Trace of the whole process started in a fresh world. -/
def runTrace (p : FlagParse) (env : Env) : List Event :=
  (runProcess p env World.initial).1.trace

/-- The way the whole process ends. -/
def runExit (p : FlagParse) (env : Env) : Exit :=
  (runProcess p env World.initial).2

/-- The events that follow the first interrupt of a trace. -/
def afterInterrupt : List Event → List Event
  | [] => []
  | .interrupt :: rest => rest
  | _ :: rest => afterInterrupt rest

/-! ## Reading the tunnel build command -/

/-- Split a character list at every occurrence of `c`. -/
def splitChars (c : Char) : List Char → List (List Char)
  | [] => [[]]
  | x :: xs =>
    if x = c then [] :: splitChars c xs
    else match splitChars c xs with
      | [] => [[x]]
      | h :: t => (x :: h) :: t

/-- The fields of `s` separated by `c`. -/
def fields (c : Char) (s : String) : List String :=
  (splitChars c s.data).map String.mk

/-- Read `host:port`. -/
def parseHostPort (s : String) : Option (String × String) :=
  match fields ':' s with
  | [h, p] => some (h, p)
  | _ => none

/-- What the tunnel build command says: the `-R port:host:hostport` forward,
the build-context URL `http://host:port/path`, and the tag. -/
structure TunnelView where
  remotePort : String
  forwardHost : String
  forwardPort : String
  urlHost : String
  urlPort : String
  urlPath : String
  tag : String
  deriving DecidableEq, Repr

/-- Read the tunnel build command `ssh -t -R <forward> <host> docker build -t
<tag> <url>`. -/
def tunnelView (args : List String) : Option TunnelView :=
  match args with
  | [_, _, r, fwd, _, _, _, t, tag, url] =>
    if r = "-R" ∧ t = "-t" then
      match fields ':' fwd, fields '/' url with
      | [p, a, q], [scheme, empty, hp, path] =>
        if scheme = "http:" ∧ empty = "" then
          (parseHostPort hp).map fun x =>
            { remotePort := p, forwardHost := a, forwardPort := q, urlHost := x.1,
              urlPort := x.2, urlPath := path, tag := tag }
        else none
      | _, _ => none
    else none
  | _ => none

/-! ## Properties the specification states, as predicates -/

/-- The path `d` exists in the world and in every state the world has been
through, and the history is as long as the trace. -/
def Keeps (d : String) (w : World) : Prop :=
  d ∈ w.files ∧ (∀ s ∈ w.history, d ∈ s.files) ∧ w.history.length = w.trace.length

/-- The import stage has not been entered: its command line has not been
echoed (the first statement of `execCommand`) and its command not started. -/
def NoImport (d : String) (t : List Event) : Prop :=
  "$ " ++ joinArgs (loadCopiedImageTarballArgs d) ∉ echoes t ∧
    loadCopiedImageTarballArgs d ∉ started t

/-- No pipeline work has been done in this run: no scratch directory created,
no file present, no command line echoed, no command started. -/
def NoWork (p : FlagParse) (env : Env) : Prop :=
  scratchDirs (runProcess p env World.initial).1.trace = [] ∧
    (runProcess p env World.initial).1.files = [] ∧
    echoes (runProcess p env World.initial).1.trace = [] ∧
    started (runProcess p env World.initial).1.trace = []

/-- C6 as the specification states it: the exit status is 2 exactly when the
host or the tag the process holds is empty. -/
def UsageStatusIff (p : FlagParse) (env : Env) : Prop :=
  (runProcess p env World.initial).2.status = 2 ↔ (p.host = "" ∨ p.tag = "")

/-- C9 as the specification states it: whenever raw mode is entered, the
terminal mode after the call equals the mode before it. -/
def RestoresTerminal (args : List String) (e : RelayEnv) (w : World) : Prop :=
  w.ctxDone = false → e.ptyStartOk = true → e.makeRawOk = true →
    (execCommand args e w).1.term = w.term

/-- The trace `t` starts its commands with the list `s` and has launched
exactly the content servers `v`. -/
def Extends (s : List (List String)) (v : List (String × String)) (t : List Event) : Prop :=
  (∃ rest, started t = s ++ rest) ∧ servers t = v

/-- C8 read off a trace of the process: the first two commands started are
the archive command and the tunnel build command, one content server has been
launched, and they fit together.  The remote port of the `-R` forward is the
port of the build-context URL, whose host is the loopback address; the forward
host resolves to the host the server listens on and the forward port is the
port it listens on; the URL path, resolved in the directory the server
serves, is the file the archive command writes; and the image is tagged with
`tag`. -/
def TunnelConsistent (resolve : String → String) (tag : String) (t : List Event) : Prop :=
  ∃ tar build rest addr root v lh lp,
    started t = tar :: build :: rest ∧ servers t = [(addr, root)] ∧
    tunnelView build = some v ∧ parseHostPort addr = some (lh, lp) ∧
    v.remotePort = v.urlPort ∧ v.urlHost = "127.0.0.1" ∧
    resolve v.forwardHost = lh ∧ v.forwardPort = lp ∧
    tar[2]? = some (filepathJoin root v.urlPath) ∧ v.tag = tag

/-- C10 as the specification states it: once an interrupt has been observed,
nothing more is echoed, started or created, and the exit status is not 0. -/
def ShortCircuits (p : FlagParse) (env : Env) : Prop :=
  Event.interrupt ∈ runTrace p env →
    echoes (afterInterrupt (runTrace p env)) = [] ∧
    started (afterInterrupt (runTrace p env)) = [] ∧
    created (afterInterrupt (runTrace p env)) = [] ∧
    (runExit p env).status ≠ 0

end DockerSshBuild

namespace DockerSshBuild

/-! ## Basic facts about the stage functions -/

theorem afterStage_nil (d : String) (r : World × Result) (next : World → World × Exit)
    (h : r.2 = .nil) : afterStage d r next = next r.1 := by
  obtain ⟨w, res⟩ := r
  simp only at h
  subst h
  rfl

theorem afterStage_err (d : String) (r : World × Result) (next : World → World × Exit)
    (g : GoErr) (h : r.2 = .err g) :
    afterStage d r next = (r.1.emit (.logErr g), .osExit 1) := by
  obtain ⟨w, res⟩ := r
  simp only at h
  subst h
  rfl

theorem afterStage_panic (d : String) (r : World × Result) (next : World → World × Exit)
    (g : GoErr) (h : r.2 = .panic g) :
    afterStage d r next = (r.1.removeAll d, .panicked) := by
  obtain ⟨w, res⟩ := r
  simp only at h
  subst h
  rfl

/-- The relay returns `nil` exactly when the command starts and raw mode is
entered; the exit status of the command plays no part. -/
theorem execCommand_nil_iff (args : List String) (e : RelayEnv) (w : World) :
    (execCommand args e w).2 = .nil ↔
      (w.ctxDone = false ∧ e.ptyStartOk = true ∧ e.makeRawOk = true) := by
  unfold execCommand
  cases hc : w.ctxDone <;> cases hp : e.ptyStartOk <;> cases hm : e.makeRawOk <;>
    simp [World.emit, hc]

/-- The relay echoes exactly one line, whatever happens next. -/
theorem echoes_execCommand (args : List String) (e : RelayEnv) (w : World) :
    echoes (execCommand args e w).1.trace = echoes w.trace ++ ["$ " ++ joinArgs args] := by
  unfold execCommand
  cases hc : w.ctxDone <;> cases hp : e.ptyStartOk <;> cases hm : e.makeRawOk <;>
    cases hi : e.interrupt <;> cases hr : e.restoreOk <;>
    simp [World.emit, hc, echoes]

/-- The transfer stage returns `nil` exactly when the file is created, the
command starts, no signal kills it and it exits with status zero. -/
theorem copyImageFromRemote_nil_iff (host tag d : String) (createOk : Bool) (e : RunEnv)
    (w : World) :
    (copyImageFromRemote host tag d createOk e w).2 = .nil ↔
      (createOk = true ∧ w.ctxDone = false ∧ e.startOk = true ∧ e.interrupt = false ∧
        e.status = .exited 0) := by
  unfold copyImageFromRemote
  cases hk : createOk <;> cases hc : w.ctxDone <;> cases hp : e.startOk <;>
    cases hi : e.interrupt <;> simp [World.emit, World.addFile, hc]
  split <;> simp_all

/-- The transfer stage echoes its line once the file has been created. -/
theorem echoes_copyImageFromRemote (host tag d : String) (e : RunEnv) (w : World) :
    echoes (copyImageFromRemote host tag d true e w).1.trace =
      echoes w.trace ++
        ["$ " ++ joinArgs (copyImageFromRemoteArgs host tag) ++ " > " ++
          filepathJoin d "image.tar"] := by
  unfold copyImageFromRemote
  cases hc : w.ctxDone <;> cases hp : e.startOk <;> cases hi : e.interrupt <;>
    simp [World.emit, World.addFile, hc, echoes]
  all_goals split <;> simp

/-- With the scratch directory created, the main goroutine is the four
stages nested over their program points. -/
theorem mainGoroutine_eq (host tag : String) (n : Nat) (env : Env)
    (hdir : env.mkdirTemp = some n) :
    mainGoroutine host tag env World.initial =
      afterStage (tempDirName n)
        (createTarball (tempDirName n) env.tar (worldAtArchive n)) fun _ =>
        afterStage (tempDirName n)
          (buildFromTarballRemotely host tag env.build (worldAtBuild n env)) fun _ =>
          afterStage (tempDirName n)
            (copyImageFromRemote host tag (tempDirName n) env.createImage env.save
              (worldAtTransfer host tag n env)) fun _ =>
            afterStage (tempDirName n)
              (loadCopiedImageTarball (tempDirName n) env.load
                (worldAtImport host tag n env)) fun w =>
              (w.removeAll (tempDirName n), .returned) := by
  simp only [mainGoroutine, hdir]
  simp only [worldAtArchive, worldAtBuild, worldAtTransfer, worldAtImport]
  rcases h1 : createTarball (tempDirName n) env.tar
      ((World.initial.addFile (tempDirName n)).emit (.mkdirTemp (tempDirName n)))
    with ⟨w1, r1⟩
  cases r1 <;> simp only [afterStage]
  rcases h2 : buildFromTarballRemotely host tag env.build
      (w1.emit (.listen serverAddr (tempDirName n))) with ⟨w2, r2⟩
  cases r2 <;> simp only [afterStage]
  rcases h3 : copyImageFromRemote host tag (tempDirName n) env.createImage env.save w2
    with ⟨w3, r3⟩
  cases r3 <;> simp only [afterStage]

/-- With the content server serving to the end, `main` is its main goroutine. -/
theorem main_of_serving (host tag : String) (env : Env) (w : World)
    (hserve : env.listen = none) : main host tag env w = mainGoroutine host tag env w := by
  simp [main, hserve]

theorem launchIndex_pos (t : List Event) (i : Nat) (h : launchIndex t = some i) : 0 < i := by
  induction t generalizing i with
  | nil => simp [launchIndex] at h
  | cons e rest ih =>
    cases e <;> simp [launchIndex] at h <;> omega

/-- Either `main` ends as its main goroutine does, or the content-server
goroutine ends it with `os.Exit(1)` in the middle of the main goroutine's
trace. -/
theorem main_cases (host tag : String) (env : Env) (w : World) :
    main host tag env w = mainGoroutine host tag env w ∨
    ∃ j, 0 < j ∧ j < (mainGoroutine host tag env w).1.trace.length ∧
      main host tag env w =
        (((mainGoroutine host tag env w).1.rewind j).emit (.logErr .listen), .osExit 1) := by
  cases hl : env.listen with
  | none => left; simp [main, hl]
  | some k =>
    cases hi : launchIndex (mainGoroutine host tag env w).1.trace with
    | none => left; simp [main, hl, hi]
    | some i =>
      by_cases hlt : i + k < (mainGoroutine host tag env w).1.trace.length
      · right
        refine ⟨i + k, ?_, hlt, ?_⟩
        · have := launchIndex_pos _ _ hi
          omega
        · simp [main, hl, hi, hlt]
      · left
        simp [main, hl, hi, hlt]

theorem trace_rewind (w : World) (j : Nat) : (w.rewind j).trace = w.trace.take j := by
  unfold World.rewind
  split <;> rfl

/-- With both flags given, the process is `main`. -/
theorem runProcess_ok (host tag : String) (env : Env) (w : World)
    (hhost : host ≠ "") (htag : tag ≠ "") :
    runProcess (.ok host tag) env w = main host tag env w := by
  simp [runProcess, init, hhost, htag, FlagParse.host, FlagParse.tag]

/-- With both flags given, a scratch directory and the content server serving
to the end, the process is the four stages nested over their program
points. -/
theorem runProcess_eq (host tag : String) (n : Nat) (env : Env)
    (hhost : host ≠ "") (htag : tag ≠ "") (hdir : env.mkdirTemp = some n)
    (hserve : env.listen = none) :
    runProcess (.ok host tag) env World.initial =
      afterStage (tempDirName n)
        (createTarball (tempDirName n) env.tar (worldAtArchive n)) fun _ =>
        afterStage (tempDirName n)
          (buildFromTarballRemotely host tag env.build (worldAtBuild n env)) fun _ =>
          afterStage (tempDirName n)
            (copyImageFromRemote host tag (tempDirName n) env.createImage env.save
              (worldAtTransfer host tag n env)) fun _ =>
            afterStage (tempDirName n)
              (loadCopiedImageTarball (tempDirName n) env.load
                (worldAtImport host tag n env)) fun w =>
              (w.removeAll (tempDirName n), .returned) := by
  rw [runProcess_ok host tag env _ hhost htag, main_of_serving host tag env _ hserve,
    mainGoroutine_eq host tag n env hdir]

/-! ## The echoed command lines, written out -/

theorem filepathJoin_eq (d : String) (name : String) :
    filepathJoin d name = d ++ ("/" ++ name) := by
  apply String.ext
  simp [filepathJoin]

theorem echo_createTarball (d : String) :
    "$ " ++ joinArgs (createTarballArgs d) = "$ tar -czf " ++ d ++ "/ctx.tar.gz ." := by
  apply String.ext
  simp [joinArgs, createTarballArgs, filepathJoin, String.intercalate, String.intercalate.go]

theorem echo_buildFromTarballRemotely (host tag : String) :
    "$ " ++ joinArgs (buildFromTarballRemotelyArgs host tag) =
      "$ ssh -t -R 50218:localhost:8080 " ++ host ++ " docker build -t " ++ tag ++
        " http://127.0.0.1:50218/ctx.tar.gz" := by
  apply String.ext
  simp [joinArgs, buildFromTarballRemotelyArgs, String.intercalate, String.intercalate.go]

theorem echo_copyImageFromRemote (host tag d : String) :
    "$ " ++ joinArgs (copyImageFromRemoteArgs host tag) ++ " > " ++ filepathJoin d "image.tar" =
      "$ ssh " ++ host ++ " docker save " ++ tag ++ " > " ++ d ++ "/image.tar" := by
  apply String.ext
  simp [joinArgs, copyImageFromRemoteArgs, filepathJoin, String.intercalate,
    String.intercalate.go]

theorem echo_loadCopiedImageTarball (d : String) :
    "$ " ++ joinArgs (loadCopiedImageTarballArgs d) = "$ docker load -i " ++ d ++ "/image.tar" := by
  apply String.ext
  simp [joinArgs, loadCopiedImageTarballArgs, filepathJoin, String.intercalate,
    String.intercalate.go]

theorem echoes_removeAll (w : World) (d : String) :
    echoes (w.removeAll d).trace = echoes w.trace := by
  simp [World.removeAll, World.emit, echoes]

theorem echoes_worldAtArchive (n : Nat) : echoes (worldAtArchive n).trace = [] := by
  simp [worldAtArchive, World.emit, World.addFile, World.initial, echoes]

theorem echoes_worldAtBuild (n : Nat) (env : Env) :
    echoes (worldAtBuild n env).trace = ["$ tar -czf " ++ tempDirName n ++ "/ctx.tar.gz ."] := by
  have h := echoes_execCommand (createTarballArgs (tempDirName n)) env.tar (worldAtArchive n)
  rw [echoes_worldAtArchive, echo_createTarball] at h
  simpa [worldAtBuild, createTarball, World.emit, echoes] using h

theorem echoes_worldAtTransfer (host tag : String) (n : Nat) (env : Env) :
    echoes (worldAtTransfer host tag n env).trace =
      ["$ tar -czf " ++ tempDirName n ++ "/ctx.tar.gz .",
       "$ ssh -t -R 50218:localhost:8080 " ++ host ++ " docker build -t " ++ tag ++
        " http://127.0.0.1:50218/ctx.tar.gz"] := by
  have h := echoes_execCommand (buildFromTarballRemotelyArgs host tag) env.build
    (worldAtBuild n env)
  rw [echoes_worldAtBuild, echo_buildFromTarballRemotely] at h
  simpa [worldAtTransfer, buildFromTarballRemotely] using h

theorem echoes_worldAtImport (host tag : String) (n : Nat) (env : Env)
    (hk : env.createImage = true) :
    echoes (worldAtImport host tag n env).trace =
      ["$ tar -czf " ++ tempDirName n ++ "/ctx.tar.gz .",
       "$ ssh -t -R 50218:localhost:8080 " ++ host ++ " docker build -t " ++ tag ++
        " http://127.0.0.1:50218/ctx.tar.gz",
       "$ ssh " ++ host ++ " docker save " ++ tag ++ " > " ++ tempDirName n ++
        "/image.tar"] := by
  unfold worldAtImport
  rw [hk, echoes_copyImageFromRemote, echoes_worldAtTransfer, echo_copyImageFromRemote]
  rfl

/-- C7: for every non-empty host and tag and every scratch directory the
process can obtain, when all four stages run to their end and return `nil`
(the content server serving throughout, so that its goroutine does not end the
process under them), the process exits with status 0 and has echoed exactly
four command lines, in this order: archive, tunnel build, save (with its
redirection), load.  Each line is the prompt `$ ` followed by the command. -/
theorem success_run_echoes_four_commands (host tag : String) (n : Nat) (env : Env)
    (hhost : host ≠ "") (htag : tag ≠ "") (hdir : env.mkdirTemp = some n)
    (hserve : env.listen = none)
    (h1 : archiveResult n env = .nil) (h2 : buildResult host tag n env = .nil)
    (h3 : transferResult host tag n env = .nil) (h4 : importResult host tag n env = .nil) :
    (runProcess (.ok host tag) env World.initial).2.status = 0 ∧
    echoes (runProcess (.ok host tag) env World.initial).1.trace =
      ["$ tar -czf " ++ tempDirName n ++ "/ctx.tar.gz .",
       "$ ssh -t -R 50218:localhost:8080 " ++ host ++ " docker build -t " ++ tag ++
        " http://127.0.0.1:50218/ctx.tar.gz",
       "$ ssh " ++ host ++ " docker save " ++ tag ++ " > " ++ tempDirName n ++ "/image.tar",
       "$ docker load -i " ++ tempDirName n ++ "/image.tar"] := by
  have hk : env.createImage = true :=
    ((copyImageFromRemote_nil_iff host tag (tempDirName n) env.createImage env.save
      (worldAtTransfer host tag n env)).1 h3).1
  rw [runProcess_eq host tag n env hhost htag hdir hserve, afterStage_nil _ _ _ h1,
    afterStage_nil _ _ _ h2, afterStage_nil _ _ _ h3, afterStage_nil _ _ _ h4]
  refine ⟨rfl, ?_⟩
  simp only [echoes_removeAll, loadCopiedImageTarball, echoes_execCommand,
    echo_loadCopiedImageTarball, echoes_worldAtImport host tag n env hk]
  rfl

/-- Scenario A (host `build01`, tag `myapp:test`, every collaborator succeeds)
as an instance of C7. -/
theorem success_run_echoes_four_commands_witness :
    (runProcess (.ok "build01" "myapp:test") (Env.allOk 42) World.initial).2.status = 0 ∧
    echoes (runProcess (.ok "build01" "myapp:test") (Env.allOk 42) World.initial).1.trace =
      ["$ tar -czf " ++ tempDirName 42 ++ "/ctx.tar.gz .",
       "$ ssh -t -R 50218:localhost:8080 " ++ "build01" ++ " docker build -t " ++
        "myapp:test" ++ " http://127.0.0.1:50218/ctx.tar.gz",
       "$ ssh " ++ "build01" ++ " docker save " ++ "myapp:test" ++ " > " ++ tempDirName 42 ++
        "/image.tar",
       "$ docker load -i " ++ tempDirName 42 ++ "/image.tar"] :=
  success_run_echoes_four_commands "build01" "myapp:test" 42 (Env.allOk 42)
    (by decide) (by decide) rfl rfl (by decide) (by decide) (by decide) (by decide)

/-! ## The scratch directory on the failure exits -/

theorem files_emit (w : World) (e : Event) : (w.emit e).files = w.files := rfl

theorem ctxDone_emit (w : World) (e : Event) : (w.emit e).ctxDone = w.ctxDone := rfl

theorem ctxDone_addFile (w : World) (p : String) : (w.addFile p).ctxDone = w.ctxDone := rfl

theorem trace_addFile (w : World) (p : String) : (w.addFile p).trace = w.trace := rfl

theorem trace_emit (w : World) (e : Event) : (w.emit e).trace = w.trace ++ [e] := rfl

theorem keeps_emit (d : String) (w : World) (e : Event) (h : Keeps d w) :
    Keeps d (w.emit e) := by
  obtain ⟨h1, h2, h3⟩ := h
  refine ⟨h1, ?_, ?_⟩
  · intro s hs
    simp only [World.emit, List.mem_append, List.mem_singleton] at hs
    rcases hs with hs | hs
    · exact h2 s hs
    · subst hs; exact h1
  · simp [World.emit, h3]

theorem keeps_addFile (d p : String) (w : World) (h : Keeps d w) : Keeps d (w.addFile p) := by
  obtain ⟨h1, h2, h3⟩ := h
  refine ⟨?_, h2, h3⟩
  unfold World.addFile
  by_cases hp : p ∈ w.files <;> simp [hp, h1]

theorem keeps_execCommand (d : String) (args : List String) (e : RelayEnv) (w : World)
    (h : Keeps d w) : Keeps d (execCommand args e w).1 := by
  obtain ⟨h1, h2, h3⟩ := h
  unfold execCommand Keeps
  cases hc : w.ctxDone <;> cases hp : e.ptyStartOk <;> cases hm : e.makeRawOk <;>
    cases hi : e.interrupt <;> cases hr : e.restoreOk <;>
    simp [World.emit, hc, h1, h3, or_imp, forall_and] <;> exact h2

theorem keeps_copyImageFromRemote (d host tag dir : String) (createOk : Bool) (e : RunEnv)
    (w : World) (h : Keeps d w) :
    Keeps d (copyImageFromRemote host tag dir createOk e w).1 := by
  have h0 := keeps_addFile d (filepathJoin dir "image.tar") w h
  obtain ⟨h1, h2, h3⟩ := h
  obtain ⟨g1, g2, g3⟩ := h0
  unfold copyImageFromRemote Keeps
  cases hk : createOk <;> cases hc : w.ctxDone <;> cases hp : e.startOk <;>
    cases hi : e.interrupt <;>
    simp [World.emit, ctxDone_addFile, hc, h1, h3, g1, or_imp, forall_and] <;>
    first
      | exact h2
      | exact ⟨g2, g3⟩
      | (split <;> simp [g1, or_imp, forall_and] <;> exact ⟨g2, g3⟩)

theorem keeps_worldAtArchive (n : Nat) : Keeps (tempDirName n) (worldAtArchive n) := by
  simp [Keeps, worldAtArchive, World.emit, World.addFile, World.initial]

theorem keeps_worldAtBuild (n : Nat) (env : Env) :
    Keeps (tempDirName n) (worldAtBuild n env) :=
  keeps_emit _ _ _ (keeps_execCommand _ _ _ _ (keeps_worldAtArchive n))

theorem keeps_worldAtTransfer (host tag : String) (n : Nat) (env : Env) :
    Keeps (tempDirName n) (worldAtTransfer host tag n env) :=
  keeps_execCommand _ _ _ _ (keeps_worldAtBuild n env)

theorem keeps_worldAtImport (host tag : String) (n : Nat) (env : Env) :
    Keeps (tempDirName n) (worldAtImport host tag n env) :=
  keeps_copyImageFromRemote _ _ _ _ _ _ _ (keeps_worldAtTransfer host tag n env)

/-- What a stage leaves behind when `main` goes through `afterStage`: on
`os.Exit(1)` a world that still holds the scratch directory, otherwise the
world of the continuation or the world after the deferred removal. -/
theorem afterStage_keeps (d : String) (r : World × Result) (next : World → World × Exit)
    (hr : Keeps d r.1)
    (hn : ((next r.1).2 = .osExit 1 ∧ Keeps d (next r.1).1) ∨
      ((next r.1).2 ≠ .osExit 1 ∧ ∃ w, Keeps d w ∧ (next r.1).1 = w.removeAll d)) :
    ((afterStage d r next).2 = .osExit 1 ∧ Keeps d (afterStage d r next).1) ∨
      ((afterStage d r next).2 ≠ .osExit 1 ∧
        ∃ w, Keeps d w ∧ (afterStage d r next).1 = w.removeAll d) := by
  obtain ⟨w, res⟩ := r
  cases res with
  | nil => exact hn
  | err g => left; exact ⟨rfl, keeps_emit _ _ _ hr⟩
  | panic g => right; exact ⟨by simp [afterStage], w, hr, rfl⟩

/-- The main goroutine ends either by `os.Exit(1)` with the scratch directory
in place in every state it went through, or otherwise with the deferred
removal as its last step. -/
theorem mainGoroutine_keeps (host tag : String) (n : Nat) (env : Env)
    (hdir : env.mkdirTemp = some n) :
    ((mainGoroutine host tag env World.initial).2 = .osExit 1 ∧
      Keeps (tempDirName n) (mainGoroutine host tag env World.initial).1) ∨
    ((mainGoroutine host tag env World.initial).2 ≠ .osExit 1 ∧
      ∃ w, Keeps (tempDirName n) w ∧
        (mainGoroutine host tag env World.initial).1 = w.removeAll (tempDirName n)) := by
  rw [mainGoroutine_eq host tag n env hdir]
  refine afterStage_keeps _ _ _ (keeps_execCommand _ _ _ _ (keeps_worldAtArchive n)) ?_
  refine afterStage_keeps _ _ _ (keeps_worldAtTransfer host tag n env) ?_
  refine afterStage_keeps _ _ _ (keeps_worldAtImport host tag n env) ?_
  refine afterStage_keeps _ _ _ (keeps_execCommand _ _ _ _ (keeps_worldAtImport host tag n env)) ?_
  right
  exact ⟨by simp, _, keeps_execCommand _ _ _ _ (keeps_worldAtImport host tag n env), rfl⟩

theorem files_rewind (d : String) (w : World) (j : Nat) (hj : 0 < j) (hne : w.history ≠ [])
    (hk : ∀ s ∈ w.history.take j, d ∈ s.files) : d ∈ (w.rewind j).files := by
  unfold World.rewind
  cases h : (w.history.take j).getLast? with
  | none =>
    rw [List.getLast?_eq_none_iff, List.take_eq_nil_iff] at h
    rcases h with h | h
    · omega
    · exact absurd h hne
  | some s => exact hk s (List.mem_of_getLast?_eq_some h)

/-- Wherever the content-server goroutine cuts the main goroutine, the scratch
directory is there. -/
theorem files_cut (host tag : String) (n : Nat) (env : Env) (hdir : env.mkdirTemp = some n)
    (j : Nat) (hj : 0 < j) (hlt : j < (mainGoroutine host tag env World.initial).1.trace.length) :
    tempDirName n ∈ ((mainGoroutine host tag env World.initial).1.rewind j).files := by
  rcases mainGoroutine_keeps host tag n env hdir with ⟨-, hk⟩ | ⟨-, w, hk, hw⟩
  · obtain ⟨-, h2, h3⟩ := hk
    refine files_rewind _ _ _ hj ?_ (fun s hs => h2 s (List.mem_of_mem_take hs))
    intro hnil
    rw [hnil] at h3
    simp only [List.length_nil] at h3
    omega
  · obtain ⟨-, h2, h3⟩ := hk
    rw [hw] at hlt ⊢
    have hlen : j ≤ w.history.length := by
      simp only [World.removeAll, World.emit, List.length_append, List.length_singleton] at hlt
      omega
    refine files_rewind _ _ _ hj ?_ ?_
    · simp [World.removeAll, World.emit]
    · intro s hs
      simp only [World.removeAll, World.emit] at hs
      rw [List.take_append_of_le_length hlen] at hs
      exact h2 s (List.mem_of_mem_take hs)

/-- C1 (the code departs from it): whenever the process ends through
`os.Exit(1)` (a stage returned an error, or the content server failed), the
deferred `os.RemoveAll` is skipped, so the process ends with status 1 and the
scratch directory still there. -/
theorem scratch_dir_survives_runtime_failure (host tag : String) (n : Nat) (env : Env)
    (hhost : host ≠ "") (htag : tag ≠ "") (hdir : env.mkdirTemp = some n)
    (hexit : (runProcess (.ok host tag) env World.initial).2 = .osExit 1) :
    (runProcess (.ok host tag) env World.initial).2.status = 1 ∧
    tempDirName n ∈ (runProcess (.ok host tag) env World.initial).1.files := by
  refine ⟨by rw [hexit]; rfl, ?_⟩
  rw [runProcess_ok host tag env _ hhost htag] at hexit ⊢
  rcases main_cases host tag env World.initial with h | ⟨j, hj, hlt, h⟩
  · rw [h] at hexit ⊢
    rcases mainGoroutine_keeps host tag n env hdir with ⟨-, hk⟩ | ⟨hne, -⟩
    · exact hk.1
    · exact absurd hexit hne
  · rw [h]
    exact files_cut host tag n env hdir j hj hlt

/-- The deferred `os.RemoveAll` does run when `main` returns or panics: on
every exit other than `os.Exit(1)` the scratch directory is gone. -/
theorem scratch_dir_removed_unless_os_exit (host tag : String) (n : Nat) (env : Env)
    (hhost : host ≠ "") (htag : tag ≠ "") (hdir : env.mkdirTemp = some n)
    (hexit : (runProcess (.ok host tag) env World.initial).2 ≠ .osExit 1) :
    tempDirName n ∉ (runProcess (.ok host tag) env World.initial).1.files := by
  rw [runProcess_ok host tag env _ hhost htag] at hexit ⊢
  rcases main_cases host tag env World.initial with h | ⟨j, -, -, h⟩
  · rw [h] at hexit ⊢
    rcases mainGoroutine_keeps host tag n env hdir with ⟨he, -⟩ | ⟨-, w, -, hw⟩
    · exact absurd he hexit
    · rw [hw]
      simp [World.removeAll, World.emit, under]
  · rw [h] at hexit
    exact absurd rfl hexit

/-- The archive command cannot be started (say `tar` is not installed): exit
status 1 and `/tmp/docker-ssh-build-42` survives. -/
theorem scratch_dir_survives_runtime_failure_witness :
    (runProcess (.ok "build01" "myapp:test")
      { Env.allOk 42 with tar := { RelayEnv.exits 0 with ptyStartOk := false } }
      World.initial).2.status = 1 ∧
    tempDirName 42 ∈ (runProcess (.ok "build01" "myapp:test")
      { Env.allOk 42 with tar := { RelayEnv.exits 0 with ptyStartOk := false } }
      World.initial).1.files :=
  scratch_dir_survives_runtime_failure "build01" "myapp:test" 42
    { Env.allOk 42 with tar := { RelayEnv.exits 0 with ptyStartOk := false } }
    (by decide) (by decide) rfl (by decide)

/-! ## The relay and the exit status of its command -/

/-- C2 (the code departs from it): once the pseudo-terminal start and the
raw-mode switch succeed, `execCommand` returns `nil` whatever the way the
command terminates; it never waits for the command, so a non-zero exit status
is not turned into an error. -/
theorem execCommand_nil_whatever_exit_status (args : List String) (e : RelayEnv) (w : World)
    (hctx : w.ctxDone = false) (hstart : e.ptyStartOk = true) (hraw : e.makeRawOk = true) :
    (execCommand args e w).2 = .nil :=
  (execCommand_nil_iff args e w).2 ⟨hctx, hstart, hraw⟩

/-- The command `false`, exiting with status 1, relayed with success. -/
theorem execCommand_nil_whatever_exit_status_witness :
    (RelayEnv.exits 1).status = .exited 1 ∧
    (execCommand ["false"] (RelayEnv.exits 1) World.initial).2 = .nil :=
  ⟨rfl, execCommand_nil_whatever_exit_status ["false"] (RelayEnv.exits 1) World.initial
    rfl rfl rfl⟩

/-- C3 (the code departs from it): with the remote build command exiting with
status 1, the build stage still returns `nil`, all four command lines are
echoed, `image.tar` is created, and the process exits with status 0. -/
theorem failed_build_does_not_stop_pipeline :
    buildResult "build01" "myapp:test" 42 { Env.allOk 42 with build := .exits 1 } = .nil ∧
    (runProcess (flagParse ["-host", "build01", "-tag", "myapp:test"])
      { Env.allOk 42 with build := .exits 1 } World.initial).2.status = 0 ∧
    echoes (runProcess (flagParse ["-host", "build01", "-tag", "myapp:test"])
      { Env.allOk 42 with build := .exits 1 } World.initial).1.trace =
      ["$ tar -czf /tmp/docker-ssh-build-42/ctx.tar.gz .",
       "$ ssh -t -R 50218:localhost:8080 build01 docker build -t myapp:test http://127.0.0.1:50218/ctx.tar.gz",
       "$ ssh build01 docker save myapp:test > /tmp/docker-ssh-build-42/image.tar",
       "$ docker load -i /tmp/docker-ssh-build-42/image.tar"] ∧
    created (runProcess (flagParse ["-host", "build01", "-tag", "myapp:test"])
      { Env.allOk 42 with build := .exits 1 } World.initial).1.trace =
      ["/tmp/docker-ssh-build-42/image.tar"] := by
  decide

/-- C4 (the code departs from it): with `tar` exiting with status 2, the
archive stage still returns `nil`, the content server is started on
`127.0.0.1:8080`, and the three later commands are run. -/
theorem failed_archive_does_not_stop_pipeline :
    archiveResult 42 { Env.allOk 42 with tar := .exits 2 } = .nil ∧
    servers (runProcess (flagParse ["-host", "build01", "-tag", "myapp:test"])
      { Env.allOk 42 with tar := .exits 2 } World.initial).1.trace =
      [("127.0.0.1:8080", "/tmp/docker-ssh-build-42")] ∧
    started (runProcess (flagParse ["-host", "build01", "-tag", "myapp:test"])
      { Env.allOk 42 with tar := .exits 2 } World.initial).1.trace =
      [["tar", "-czf", "/tmp/docker-ssh-build-42/ctx.tar.gz", "."],
       ["ssh", "-t", "-R", "50218:localhost:8080", "build01", "docker", "build", "-t",
        "myapp:test", "http://127.0.0.1:50218/ctx.tar.gz"],
       ["ssh", "build01", "docker", "save", "myapp:test"],
       ["docker", "load", "-i", "/tmp/docker-ssh-build-42/image.tar"]] := by
  decide

/-- The half of C4 that the code keeps: when the archive command cannot be
started, no content server is started and no later command is echoed or run. -/
theorem archive_start_failure_stops_pipeline (host tag : String) (n : Nat) (env : Env)
    (hhost : host ≠ "") (htag : tag ≠ "") (hdir : env.mkdirTemp = some n)
    (hstart : env.tar.ptyStartOk = false) :
    (runProcess (.ok host tag) env World.initial).2 = .osExit 1 ∧
    servers (runProcess (.ok host tag) env World.initial).1.trace = [] ∧
    started (runProcess (.ok host tag) env World.initial).1.trace = [] ∧
    echoes (runProcess (.ok host tag) env World.initial).1.trace =
      ["$ tar -czf " ++ tempDirName n ++ "/ctx.tar.gz ."] := by
  have h1 : (createTarball (tempDirName n) env.tar (worldAtArchive n)) =
      ((worldAtArchive n).emit (.echo ("$ " ++ joinArgs (createTarballArgs (tempDirName n)))),
        .err .ptyStart) := by
    simp [createTarball, execCommand, hstart]
  have hg : mainGoroutine host tag env World.initial =
      (((worldAtArchive n).emit
          (.echo ("$ " ++ joinArgs (createTarballArgs (tempDirName n))))).emit
        (.logErr .ptyStart), .osExit 1) := by
    rw [mainGoroutine_eq host tag n env hdir, h1]
    rfl
  have hli : launchIndex (mainGoroutine host tag env World.initial).1.trace = none := by
    rw [hg]
    simp [worldAtArchive, World.emit, World.addFile, World.initial, launchIndex]
  have hm : main host tag env World.initial = mainGoroutine host tag env World.initial := by
    cases hl : env.listen <;> simp [main, hl, hli]
  rw [runProcess_ok host tag env _ hhost htag, hm, hg, ← echo_createTarball]
  simp [World.emit, worldAtArchive, World.addFile, World.initial, servers, started, echoes]

/-! ## The import stage runs only after a successful transfer -/

theorem started_execCommand (args : List String) (e : RelayEnv) (w : World) :
    started (execCommand args e w).1.trace =
      started w.trace ++ (if w.ctxDone || !e.ptyStartOk then [] else [args]) := by
  unfold execCommand
  cases hc : w.ctxDone <;> cases hp : e.ptyStartOk <;> cases hm : e.makeRawOk <;>
    cases hi : e.interrupt <;> cases hr : e.restoreOk <;>
    simp [World.emit, hc, started]

theorem started_execCommand_subset (args : List String) (e : RelayEnv) (w : World)
    (x : List String) (h : x ∈ started (execCommand args e w).1.trace) :
    x ∈ started w.trace ∨ x = args := by
  rw [started_execCommand] at h
  split_ifs at h
  · left; simpa using h
  · simpa using h

theorem started_copyImageFromRemote (host tag d : String) (createOk : Bool)
    (e : RunEnv) (w : World) :
    started (copyImageFromRemote host tag d createOk e w).1.trace =
      started w.trace ++
        (if createOk && !w.ctxDone && e.startOk then [copyImageFromRemoteArgs host tag]
          else []) := by
  unfold copyImageFromRemote
  cases hk : createOk <;> cases hc : w.ctxDone <;> cases hp : e.startOk <;>
    cases hi : e.interrupt <;>
    simp [trace_emit, trace_addFile, ctxDone_emit, ctxDone_addFile, hc, started]
  all_goals split <;> simp [trace_emit, trace_addFile]

theorem started_copyImageFromRemote_subset (host tag d : String) (createOk : Bool)
    (e : RunEnv) (w : World) (x : List String)
    (h : x ∈ started (copyImageFromRemote host tag d createOk e w).1.trace) :
    x ∈ started w.trace ∨ x = copyImageFromRemoteArgs host tag := by
  rw [started_copyImageFromRemote] at h
  split_ifs at h
  · simpa using h
  · left; simpa using h

theorem echoes_copyImageFromRemote_subset (host tag d : String) (createOk : Bool)
    (e : RunEnv) (w : World) (x : String)
    (h : x ∈ echoes (copyImageFromRemote host tag d createOk e w).1.trace) :
    x ∈ echoes w.trace ∨
      x = "$ " ++ joinArgs (copyImageFromRemoteArgs host tag) ++ " > " ++
        filepathJoin d "image.tar" := by
  cases createOk with
  | true => rw [echoes_copyImageFromRemote] at h; simpa using h
  | false => left; simpa [copyImageFromRemote] using h

theorem loadLine_ne_tarLine (d d2 : String) :
    "$ " ++ joinArgs (loadCopiedImageTarballArgs d) ≠
      "$ " ++ joinArgs (createTarballArgs d2) := by
  rw [Ne, String.ext_iff]
  simp [joinArgs, loadCopiedImageTarballArgs, createTarballArgs, String.intercalate,
    String.intercalate.go]

theorem loadLine_ne_buildLine (d host tag : String) :
    "$ " ++ joinArgs (loadCopiedImageTarballArgs d) ≠
      "$ " ++ joinArgs (buildFromTarballRemotelyArgs host tag) := by
  rw [Ne, String.ext_iff]
  simp [joinArgs, loadCopiedImageTarballArgs, buildFromTarballRemotelyArgs,
    String.intercalate, String.intercalate.go]

theorem loadLine_ne_saveLine (d host tag d2 : String) :
    "$ " ++ joinArgs (loadCopiedImageTarballArgs d) ≠
      "$ " ++ joinArgs (copyImageFromRemoteArgs host tag) ++ " > " ++
        filepathJoin d2 "image.tar" := by
  rw [Ne, String.ext_iff]
  simp [joinArgs, loadCopiedImageTarballArgs, copyImageFromRemoteArgs, String.intercalate,
    String.intercalate.go]

theorem noImport_emit (d : String) (w : World) (e : Event)
    (he : ∀ l, e ≠ .echo l) (hs : ∀ a, e ≠ .start a) (h : NoImport d w.trace) :
    NoImport d (w.emit e).trace := by
  unfold NoImport at h ⊢
  cases e <;> simp_all [trace_emit, echoes, started]

theorem noImport_removeAll (d d2 : String) (w : World) (h : NoImport d w.trace) :
    NoImport d (w.removeAll d2).trace := by
  unfold NoImport at h ⊢
  simpa [World.removeAll, World.emit, echoes, started] using h

theorem noImport_worldAtArchive (n : Nat) : NoImport (tempDirName n) (worldAtArchive n).trace := by
  simp [NoImport, worldAtArchive, World.emit, World.addFile, World.initial, echoes, started]

theorem noImport_afterArchive (n : Nat) (env : Env) :
    NoImport (tempDirName n) (createTarball (tempDirName n) env.tar (worldAtArchive n)).1.trace := by
  have h0 := noImport_worldAtArchive n
  refine ⟨?_, ?_⟩
  · rw [createTarball, echoes_execCommand]
    simp only [List.mem_append, List.mem_singleton, not_or]
    exact ⟨h0.1, loadLine_ne_tarLine _ _⟩
  · intro h
    rcases started_execCommand_subset _ _ _ _ h with h | h
    · exact h0.2 h
    · simp [loadCopiedImageTarballArgs, createTarballArgs] at h

theorem noImport_worldAtBuild (n : Nat) (env : Env) :
    NoImport (tempDirName n) (worldAtBuild n env).trace :=
  noImport_emit _ _ _ (by simp) (by simp) (noImport_afterArchive n env)

theorem noImport_worldAtTransfer (host tag : String) (n : Nat) (env : Env) :
    NoImport (tempDirName n) (worldAtTransfer host tag n env).trace := by
  have h0 := noImport_worldAtBuild n env
  refine ⟨?_, ?_⟩
  · rw [worldAtTransfer, buildFromTarballRemotely, echoes_execCommand]
    simp only [List.mem_append, List.mem_singleton, not_or]
    exact ⟨h0.1, loadLine_ne_buildLine _ _ _⟩
  · intro h
    rcases started_execCommand_subset _ _ _ _ h with h | h
    · exact h0.2 h
    · simp [loadCopiedImageTarballArgs, buildFromTarballRemotelyArgs] at h

theorem noImport_worldAtImport (host tag : String) (n : Nat) (env : Env) :
    NoImport (tempDirName n) (worldAtImport host tag n env).trace := by
  have h0 := noImport_worldAtTransfer host tag n env
  refine ⟨?_, ?_⟩
  · intro h
    rcases echoes_copyImageFromRemote_subset _ _ _ _ _ _ _ h with h | h
    · exact h0.1 h
    · exact loadLine_ne_saveLine _ _ _ _ h
  · intro h
    rcases started_copyImageFromRemote_subset _ _ _ _ _ _ _ h with h | h
    · exact h0.2 h
    · simp [loadCopiedImageTarballArgs, copyImageFromRemoteArgs] at h

/-- A stage that does not return `nil` ends the process with the trace it
left, plus a log entry or the deferred removal. -/
theorem noImport_afterStage_stop (d d2 : String) (r : World × Result)
    (next : World → World × Exit) (hr : r.2 ≠ .nil) (h : NoImport d r.1.trace) :
    NoImport d (afterStage d2 r next).1.trace := by
  obtain ⟨w, res⟩ := r
  cases res with
  | nil => exact absurd rfl hr
  | err g => exact noImport_emit _ _ _ (by simp) (by simp) h
  | panic g => exact noImport_removeAll _ _ _ h

theorem noImport_take (d : String) (t : List Event) (j : Nat) (h : NoImport d t) :
    NoImport d (t.take j) := by
  refine ⟨fun hm => h.1 ?_, fun hm => h.2 ?_⟩
  · exact ((List.take_sublist j t).filterMap _).subset hm
  · exact ((List.take_sublist j t).filterMap _).subset hm

/-- When the transfer stage does not return `nil`, the main goroutine never
enters the import stage. -/
theorem noImport_mainGoroutine (host tag : String) (n : Nat) (env : Env)
    (hdir : env.mkdirTemp = some n) (h3 : transferResult host tag n env ≠ .nil) :
    NoImport (tempDirName n) (mainGoroutine host tag env World.initial).1.trace := by
  rw [mainGoroutine_eq host tag n env hdir]
  by_cases h1 : (createTarball (tempDirName n) env.tar (worldAtArchive n)).2 = .nil
  · rw [afterStage_nil _ _ _ h1]
    by_cases h2 : (buildFromTarballRemotely host tag env.build (worldAtBuild n env)).2 = .nil
    · rw [afterStage_nil _ _ _ h2]
      exact noImport_afterStage_stop _ _ _ _ h3 (noImport_worldAtImport host tag n env)
    · exact noImport_afterStage_stop _ _ _ _ h2 (noImport_worldAtTransfer host tag n env)
  · exact noImport_afterStage_stop _ _ _ _ h1 (noImport_afterArchive n env)

/-- Whenever the import stage is entered, the transfer stage has returned
`nil`; this holds whatever the content server does. -/
theorem import_only_after_transfer (host tag : String) (n : Nat) (env : Env)
    (hhost : host ≠ "") (htag : tag ≠ "") (hdir : env.mkdirTemp = some n)
    (h : ¬ NoImport (tempDirName n) (runProcess (.ok host tag) env World.initial).1.trace) :
    transferResult host tag n env = .nil := by
  by_contra h3
  apply h
  have hg := noImport_mainGoroutine host tag n env hdir h3
  rw [runProcess_ok host tag env _ hhost htag]
  rcases main_cases host tag env World.initial with hm | ⟨j, -, -, hm⟩
  · rw [hm]; exact hg
  · rw [hm]
    refine noImport_emit _ _ _ (by simp) (by simp) ?_
    rw [trace_rewind]
    exact noImport_take _ _ _ hg

/-- C5: for every non-empty host and tag, if the transfer stage fails
(`image.tar` cannot be created, the `ssh ... docker save` command cannot be
started, exits with a non-zero status, or is killed), then
`copyImageFromRemote` returns an error in whatever world it runs, `main` exits
with status 1 once the two earlier stages have returned `nil`, and the import
command `docker load` is neither echoed nor started.  Nothing is assumed about
the content server. -/
theorem transfer_failure_blocks_import (host tag : String) (n : Nat) (env : Env)
    (hhost : host ≠ "") (htag : tag ≠ "") (hdir : env.mkdirTemp = some n)
    (hfail : env.createImage = false ∨ env.save.startOk = false ∨
      env.save.status ≠ .exited 0 ∨ env.save.interrupt = true) :
    (∀ w, ∃ g, (copyImageFromRemote host tag (tempDirName n) env.createImage env.save w).2 =
      .err g) ∧
    (archiveResult n env = .nil → buildResult host tag n env = .nil →
      (runProcess (.ok host tag) env World.initial).2 = .osExit 1 ∧
      (runProcess (.ok host tag) env World.initial).2.status = 1) ∧
    "$ docker load -i " ++ tempDirName n ++ "/image.tar" ∉
      echoes (runProcess (.ok host tag) env World.initial).1.trace ∧
    ["docker", "load", "-i", tempDirName n ++ "/image.tar"] ∉
      started (runProcess (.ok host tag) env World.initial).1.trace := by
  have herr : ∀ w, ∃ g,
      (copyImageFromRemote host tag (tempDirName n) env.createImage env.save w).2 = .err g := by
    intro w
    have hn : (copyImageFromRemote host tag (tempDirName n) env.createImage env.save w).2 ≠
        .nil := by
      intro hnil
      have hc := (copyImageFromRemote_nil_iff _ _ _ _ _ _).1 hnil
      rcases hfail with hf | hf | hf | hf
      · rw [hc.1] at hf; cases hf
      · rw [hc.2.2.1] at hf; cases hf
      · exact hf hc.2.2.2.2
      · rw [hc.2.2.2.1] at hf; cases hf
    revert hn
    unfold copyImageFromRemote
    simp only []
    split_ifs <;> simp
  have hno : NoImport (tempDirName n)
      (runProcess (.ok host tag) env World.initial).1.trace := by
    by_contra hc
    have h3 := import_only_after_transfer host tag n env hhost htag hdir hc
    obtain ⟨g, hg⟩ := herr (worldAtTransfer host tag n env)
    rw [transferResult, hg] at h3
    cases h3
  refine ⟨herr, ?_, ?_, ?_⟩
  · intro h1 h2
    obtain ⟨g, hg⟩ := herr (worldAtTransfer host tag n env)
    rw [runProcess_ok host tag env _ hhost htag]
    rcases main_cases host tag env World.initial with hm | ⟨j, -, -, hm⟩
    · rw [hm, mainGoroutine_eq host tag n env hdir, afterStage_nil _ _ _ h1,
        afterStage_nil _ _ _ h2, afterStage_err _ _ _ g hg]
      exact ⟨rfl, rfl⟩
    · rw [hm]
      exact ⟨rfl, rfl⟩
  · rw [← echo_loadCopiedImageTarball]
    exact hno.1
  · have hp : loadCopiedImageTarballArgs (tempDirName n) =
        ["docker", "load", "-i", tempDirName n ++ "/image.tar"] := by
      simp [loadCopiedImageTarballArgs, filepathJoin_eq]
    rw [← hp]
    exact hno.2

/-- The `docker save` command killed in mid-stream: status 1, no `docker load`. -/
theorem transfer_failure_blocks_import_witness :
    (runProcess (.ok "build01" "myapp:test")
      { Env.allOk 42 with save := { RunEnv.exits 0 with status := .signaled } }
      World.initial).2.status = 1 ∧
    "$ docker load -i " ++ tempDirName 42 ++ "/image.tar" ∉
      echoes (runProcess (.ok "build01" "myapp:test")
        { Env.allOk 42 with save := { RunEnv.exits 0 with status := .signaled } }
        World.initial).1.trace :=
  have h := transfer_failure_blocks_import "build01" "myapp:test" 42
    { Env.allOk 42 with save := { RunEnv.exits 0 with status := .signaled } }
    (by decide) (by decide) rfl (Or.inr (Or.inr (Or.inl (by decide))))
  ⟨(h.2.1 (by decide) (by decide)).2, h.2.2.1⟩

/-! ## Exit statuses -/

theorem execCommand_panic_imp (args : List String) (e : RelayEnv) (w : World) (g : GoErr)
    (h : (execCommand args e w).2 = .panic g) : e.makeRawOk = false := by
  unfold execCommand at h
  revert h
  cases hc : w.ctxDone <;> cases hp : e.ptyStartOk <;> cases hm : e.makeRawOk <;>
    simp [World.emit, hc]

theorem copyImageFromRemote_no_panic (host tag d : String) (createOk : Bool) (e : RunEnv)
    (w : World) (g : GoErr) : (copyImageFromRemote host tag d createOk e w).2 ≠ .panic g := by
  unfold copyImageFromRemote
  simp only []
  split_ifs <;> simp

/-- The canonical command line `-host <host> -tag <tag>` is accepted by
`flag.Parse()` with these two values, whatever the strings are. -/
theorem flagParse_host_tag (host tag : String) :
    flagParse ["-host", host, "-tag", tag] = .ok host tag := by
  have h1 : classifyArg "-host".data = .flag ['h', 'o', 's', 't'] none := by decide
  have h2 : classifyArg "-tag".data = .flag ['t', 'a', 'g'] none := by decide
  simp [flagParse, parseArgs, parseOne, h1, h2]

theorem runProcess_failed (host tag : String) (env : Env) (w : World) :
    runProcess (.failed host tag) env w = (w.emit .usage, .osExit 2) := rfl

theorem runProcess_help (host tag : String) (env : Env) (w : World) :
    runProcess (.help host tag) env w = (w.emit .usage, .osExit 0) := rfl

theorem runProcess_usage (host tag : String) (env : Env) (w : World)
    (h : host = "" ∨ tag = "") :
    runProcess (.ok host tag) env w =
      (w.emit (.logMsg "host or tag is empty"), .osExit 2) := by
  simp [runProcess, init, h]

/-- The main goroutine ends by `os.Exit(1)`, by a return of `main`, or by the
panic of a failed raw-mode switch. -/
theorem mainGoroutine_exit_cases (host tag : String) (env : Env) :
    (mainGoroutine host tag env World.initial).2 = .osExit 1 ∨
    (mainGoroutine host tag env World.initial).2 = .returned ∨
    ((mainGoroutine host tag env World.initial).2 = .panicked ∧
      (env.tar.makeRawOk = false ∨ env.build.makeRawOk = false ∨
        env.load.makeRawOk = false)) := by
  cases hdir : env.mkdirTemp with
  | none => left; simp [mainGoroutine, hdir]
  | some n =>
    rw [mainGoroutine_eq host tag n env hdir]
    cases h1 : (createTarball (tempDirName n) env.tar (worldAtArchive n)).2 with
    | err g => left; rw [afterStage_err _ _ _ g h1]
    | panic g =>
      right; right
      rw [afterStage_panic _ _ _ g h1]
      exact ⟨rfl, Or.inl (execCommand_panic_imp _ _ _ g h1)⟩
    | nil =>
      rw [afterStage_nil _ _ _ h1]
      cases h2 : (buildFromTarballRemotely host tag env.build (worldAtBuild n env)).2 with
      | err g => left; rw [afterStage_err _ _ _ g h2]
      | panic g =>
        right; right
        rw [afterStage_panic _ _ _ g h2]
        exact ⟨rfl, Or.inr (Or.inl (execCommand_panic_imp _ _ _ g h2))⟩
      | nil =>
        rw [afterStage_nil _ _ _ h2]
        cases h3 : (copyImageFromRemote host tag (tempDirName n) env.createImage env.save
            (worldAtTransfer host tag n env)).2 with
        | err g => left; rw [afterStage_err _ _ _ g h3]
        | panic g => exact absurd h3 (copyImageFromRemote_no_panic _ _ _ _ _ _ g)
        | nil =>
          rw [afterStage_nil _ _ _ h3]
          cases h4 : (loadCopiedImageTarball (tempDirName n) env.load
              (worldAtImport host tag n env)).2 with
          | err g => left; rw [afterStage_err _ _ _ g h4]
          | panic g =>
            right; right
            rw [afterStage_panic _ _ _ g h4]
            exact ⟨rfl, Or.inr (Or.inr (execCommand_panic_imp _ _ _ g h4))⟩
          | nil => right; left; rw [afterStage_nil _ _ _ h4]

/-- With both flags given, the process ends by `os.Exit(1)`, by a return of
`main`, or by the panic of a failed raw-mode switch; this holds whatever the
content server does. -/
theorem exit_cases (host tag : String) (env : Env) (hhost : host ≠ "") (htag : tag ≠ "") :
    (runProcess (.ok host tag) env World.initial).2 = .osExit 1 ∨
    (runProcess (.ok host tag) env World.initial).2 = .returned ∨
    ((runProcess (.ok host tag) env World.initial).2 = .panicked ∧
      (env.tar.makeRawOk = false ∨ env.build.makeRawOk = false ∨
        env.load.makeRawOk = false)) := by
  rw [runProcess_ok host tag env _ hhost htag]
  rcases main_cases host tag env World.initial with hm | ⟨j, -, -, hm⟩
  · rw [hm]; exact mainGoroutine_exit_cases host tag env
  · left; rw [hm]

/-- C6 fails as stated, in both directions and apart from the flags: an
undefined flag after `-host build01 -tag myapp:test` makes `flag.Parse()` exit
with status 2 although host and tag are set; `-h` makes it exit with status 0
although both are empty; and with both flags given, a failing raw-mode switch
in the archive relay (standard input is not a terminal, say) panics, which
ends the process with status 2 as well. -/
theorem usage_status_iff_fails :
    ¬ UsageStatusIff (flagParse ["-host", "build01", "-tag", "myapp:test", "-bogus"])
      (Env.allOk 42) ∧
    ¬ UsageStatusIff (flagParse ["-h"]) (Env.allOk 42) ∧
    ¬ UsageStatusIff (flagParse ["-host", "build01", "-tag", "myapp:test"])
      { Env.allOk 42 with tar := { RelayEnv.exits 0 with makeRawOk := false } } := by
  unfold UsageStatusIff
  decide

/-- C6, amended: `flag.Parse()` ends the process by itself before any pipeline
work, with status 2 when it rejects the command line and with status 0 on `-h`
or `-help`, whatever host and tag hold then.  When it accepts the command line
with the values host and tag (as it does for `-host <host> -tag <tag>`), the
process leaves through the usage exit `os.Exit(2)` of `init` if and only if
host or tag is empty, and then before any scratch directory is created and
before any command is echoed or started; as long as no raw-mode switch fails,
the exit status is 2 if and only if host or tag is empty; and status 2 differs
from the runtime-failure status 1 and from the success status 0. -/
theorem usage_exit_iff_empty_flag (host tag : String) (env : Env) :
    ((runProcess (.failed host tag) env World.initial).2 = .osExit 2 ∧
      NoWork (.failed host tag) env) ∧
    ((runProcess (.help host tag) env World.initial).2 = .osExit 0 ∧
      NoWork (.help host tag) env) ∧
    flagParse ["-host", host, "-tag", tag] = .ok host tag ∧
    ((runProcess (.ok host tag) env World.initial).2 = .osExit 2 ↔ (host = "" ∨ tag = "")) ∧
    ((host = "" ∨ tag = "") → NoWork (.ok host tag) env) ∧
    (env.tar.makeRawOk = true → env.build.makeRawOk = true → env.load.makeRawOk = true →
      ((runProcess (.ok host tag) env World.initial).2.status = 2 ↔
        (host = "" ∨ tag = ""))) ∧
    (Exit.osExit 2).status ≠ (Exit.osExit 1).status ∧
    (Exit.osExit 2).status ≠ Exit.returned.status := by
  refine ⟨⟨rfl, ?_⟩, ⟨rfl, ?_⟩, flagParse_host_tag host tag, ?_, ?_, ?_, by decide, by decide⟩
  · simp [NoWork, runProcess_failed, World.emit, World.initial, scratchDirs, echoes, started]
  · simp [NoWork, runProcess_help, World.emit, World.initial, scratchDirs, echoes, started]
  · constructor
    · intro h
      by_contra hne
      rw [not_or] at hne
      rcases exit_cases host tag env hne.1 hne.2 with h1 | h1 | h1
      · rw [h1] at h; cases h
      · rw [h1] at h; cases h
      · rw [h1.1] at h; cases h
    · intro h
      rw [runProcess_usage host tag env _ h]
  · intro h
    simp [NoWork, runProcess_usage host tag env _ h, World.emit, World.initial, scratchDirs,
      echoes, started]
  · intro ht hb hl
    constructor
    · intro h
      by_contra hne
      rw [not_or] at hne
      rcases exit_cases host tag env hne.1 hne.2 with h1 | h1 | h1
      · rw [h1] at h; cases h
      · rw [h1] at h; cases h
      · rcases h1.2 with h2 | h2 | h2
        · rw [ht] at h2; cases h2
        · rw [hb] at h2; cases h2
        · rw [hl] at h2; cases h2
    · intro h
      rw [runProcess_usage host tag env _ h]
      rfl

/-- Scenario B (host empty, tag `myapp:test`): usage exit with status 2 before
anything is echoed. -/
theorem usage_exit_iff_empty_flag_witness :
    (runProcess (flagParse ["-host", "", "-tag", "myapp:test"]) (Env.allOk 42)
      World.initial).2.status = 2 ∧
    echoes (runProcess (.ok "" "myapp:test") (Env.allOk 42) World.initial).1.trace = [] :=
  have h := usage_exit_iff_empty_flag "" "myapp:test" (Env.allOk 42)
  ⟨by rw [h.2.2.1]; exact (h.2.2.2.2.2.1 rfl rfl rfl).2 (Or.inl rfl),
   (h.2.2.2.2.1 (Or.inl rfl)).2.2.1⟩

/-! ## The terminal mode across a relay -/

/-- C9 fails as stated: `term.Restore` is called on the way out, but its error
is discarded, so when it fails the call returns `nil` with the terminal left
in raw mode. -/
theorem terminal_left_raw_when_restore_fails :
    ¬ RestoresTerminal ["tar", "-czf", "/tmp/docker-ssh-build-42/ctx.tar.gz", "."]
      { RelayEnv.exits 0 with restoreOk := false } World.initial := by
  unfold RestoresTerminal
  decide

/-- C9, amended: in every call of `execCommand` in which raw mode is entered
(the command starts and `term.MakeRaw` succeeds), `term.Restore` is called
once, as the last action before the return, however the command terminates
(exit status, kill by signal, cancellation during the call), and the call
returns `nil` whether that restore succeeds or not: when it succeeds the
terminal mode on return equals the mode before the call, when it fails the
error is discarded and the terminal is left in raw mode.  When the
pseudo-terminal start fails the call returns the error having done nothing but
echo the command line, so the terminal is never switched to raw mode. -/
theorem terminal_restore_best_effort (args : List String) (e : RelayEnv) (w : World) :
    (w.ctxDone = false → e.ptyStartOk = true → e.makeRawOk = true →
      (execCommand args e w).2 = .nil ∧
      (execCommand args e w).1.trace =
        w.trace ++ [.echo ("$ " ++ joinArgs args), .start args, .makeRaw] ++
          (if e.interrupt = true then [.interrupt] else []) ++ [.restore] ∧
      (e.restoreOk = true → (execCommand args e w).1.term = w.term) ∧
      (e.restoreOk = false → (execCommand args e w).1.term = .raw)) ∧
    (e.ptyStartOk = false →
      execCommand args e w = (w.emit (.echo ("$ " ++ joinArgs args)), .err .ptyStart) ∧
      (execCommand args e w).1.term = w.term) := by
  constructor
  · intro hc hp hm
    unfold execCommand
    cases hi : e.interrupt <;> cases hr : e.restoreOk <;> simp [World.emit, hc, hp, hm]
  · intro hp
    unfold execCommand
    simp [World.emit, hp]

/-- A relayed command killed by cancellation while the terminal is raw: with
the restore succeeding the mode is back to cooked on return, with the restore
failing the call still returns `nil` and the terminal stays raw. -/
theorem terminal_restore_best_effort_witness :
    (execCommand ["ssh", "build01"]
      { RelayEnv.exits 0 with status := .signaled, interrupt := true }
      World.initial).1.term = .cooked ∧
    (execCommand ["ssh", "build01"]
      { RelayEnv.exits 0 with status := .signaled, interrupt := true, restoreOk := false }
      World.initial).2 = .nil ∧
    (execCommand ["ssh", "build01"]
      { RelayEnv.exits 0 with status := .signaled, interrupt := true, restoreOk := false }
      World.initial).1.term = .raw ∧
    (execCommand ["ssh", "build01"] { RelayEnv.exits 0 with ptyStartOk := false }
      World.initial).1.term = .cooked :=
  ⟨((terminal_restore_best_effort ["ssh", "build01"]
      { RelayEnv.exits 0 with status := .signaled, interrupt := true }
      World.initial).1 rfl rfl rfl).2.2.1 rfl,
   ((terminal_restore_best_effort ["ssh", "build01"]
      { RelayEnv.exits 0 with status := .signaled, interrupt := true, restoreOk := false }
      World.initial).1 rfl rfl rfl).1,
   ((terminal_restore_best_effort ["ssh", "build01"]
      { RelayEnv.exits 0 with status := .signaled, interrupt := true, restoreOk := false }
      World.initial).1 rfl rfl rfl).2.2.2 rfl,
   ((terminal_restore_best_effort ["ssh", "build01"]
      { RelayEnv.exits 0 with ptyStartOk := false } World.initial).2 rfl).2⟩

/-! ## The tunnel, the content server and the bundle -/

theorem tunnelView_build (host tag : String) :
    tunnelView (buildFromTarballRemotelyArgs host tag) =
      some { remotePort := "50218", forwardHost := "localhost", forwardPort := "8080",
             urlHost := "127.0.0.1", urlPort := "50218", urlPath := "ctx.tar.gz",
             tag := tag } := by
  have h1 : fields ':' "50218:localhost:8080" = ["50218", "localhost", "8080"] := by decide
  have h2 : fields '/' "http://127.0.0.1:50218/ctx.tar.gz" =
      ["http:", "", "127.0.0.1:50218", "ctx.tar.gz"] := by decide
  have h3 : parseHostPort "127.0.0.1:50218" = some ("127.0.0.1", "50218") := by decide
  simp [tunnelView, buildFromTarballRemotelyArgs, h1, h2, h3]

theorem servers_execCommand (args : List String) (e : RelayEnv) (w : World) :
    servers (execCommand args e w).1.trace = servers w.trace := by
  unfold execCommand
  cases hc : w.ctxDone <;> cases hp : e.ptyStartOk <;> cases hm : e.makeRawOk <;>
    cases hi : e.interrupt <;> cases hr : e.restoreOk <;>
    simp [World.emit, hc, servers]

theorem servers_copyImageFromRemote (host tag d : String) (createOk : Bool) (e : RunEnv)
    (w : World) :
    servers (copyImageFromRemote host tag d createOk e w).1.trace = servers w.trace := by
  unfold copyImageFromRemote
  cases hk : createOk <;> cases hc : w.ctxDone <;> cases hp : e.startOk <;>
    cases hi : e.interrupt <;>
    simp [trace_emit, trace_addFile, ctxDone_emit, ctxDone_addFile, hc, servers]
  all_goals split <;> simp [trace_emit, trace_addFile]

/-- The content server `main` launches after the archive stage listens on
`serverAddr` and serves the scratch directory. -/
theorem servers_worldAtBuild (n : Nat) (env : Env) :
    servers (worldAtBuild n env).trace = [(serverAddr, tempDirName n)] := by
  have h := servers_execCommand (createTarballArgs (tempDirName n)) env.tar (worldAtArchive n)
  have h0 : servers (worldAtArchive n).trace = [] := by
    simp [worldAtArchive, World.emit, World.addFile, World.initial, servers]
  rw [h0] at h
  simp only [worldAtBuild, createTarball, trace_emit, servers, List.filterMap_append]
  simp only [servers] at h
  rw [h]
  rfl

theorem extends_emit (s : List (List String)) (v : List (String × String)) (w : World)
    (e : Event) (he : ∀ a r, e ≠ .listen a r) (h : Extends s v w.trace) :
    Extends s v (w.emit e).trace := by
  obtain ⟨⟨rest, h1⟩, h2⟩ := h
  cases e with
  | listen a r => exact absurd rfl (he a r)
  | start a =>
    refine ⟨⟨rest ++ [a], ?_⟩, by simpa [trace_emit, servers] using h2⟩
    simp only [trace_emit, started, List.filterMap_append] at h1 ⊢
    rw [h1, List.append_assoc]
    rfl
  | _ =>
    exact ⟨⟨rest, by simpa [trace_emit, started] using h1⟩,
      by simpa [trace_emit, servers] using h2⟩

theorem extends_removeAll (s : List (List String)) (v : List (String × String)) (w : World)
    (d : String) (h : Extends s v w.trace) : Extends s v (w.removeAll d).trace := by
  obtain ⟨⟨rest, h1⟩, h2⟩ := h
  exact ⟨⟨rest, by simpa [World.removeAll, World.emit, started] using h1⟩,
    by simpa [World.removeAll, World.emit, servers] using h2⟩

theorem extends_execCommand (s : List (List String)) (v : List (String × String))
    (args : List String) (e : RelayEnv) (w : World) (h : Extends s v w.trace) :
    Extends s v (execCommand args e w).1.trace := by
  obtain ⟨⟨rest, h1⟩, h2⟩ := h
  refine ⟨⟨rest ++ (if w.ctxDone || !e.ptyStartOk then [] else [args]), ?_⟩, ?_⟩
  · rw [started_execCommand, h1, List.append_assoc]
  · rw [servers_execCommand, h2]

theorem extends_copyImageFromRemote (s : List (List String)) (v : List (String × String))
    (host tag d : String) (createOk : Bool) (e : RunEnv) (w : World)
    (h : Extends s v w.trace) :
    Extends s v (copyImageFromRemote host tag d createOk e w).1.trace := by
  obtain ⟨⟨rest, h1⟩, h2⟩ := h
  refine ⟨⟨rest ++ (if createOk && !w.ctxDone && e.startOk then
    [copyImageFromRemoteArgs host tag] else []), ?_⟩, ?_⟩
  · rw [started_copyImageFromRemote, h1, List.append_assoc]
  · rw [servers_copyImageFromRemote, h2]

theorem extends_afterStage (s : List (List String)) (v : List (String × String))
    (d : String) (r : World × Result) (next : World → World × Exit)
    (hr : Extends s v r.1.trace) (hn : Extends s v (next r.1).1.trace) :
    Extends s v (afterStage d r next).1.trace := by
  obtain ⟨w, res⟩ := r
  cases res with
  | nil => exact hn
  | err g => exact extends_emit _ _ _ _ (by simp) hr
  | panic g => exact extends_removeAll _ _ _ _ hr

/-- Once the archive and the build stage have returned `nil`, the trace of the
world handed to the transfer stage holds the two commands and the server. -/
theorem extends_worldAtTransfer (host tag : String) (n : Nat) (env : Env)
    (h1 : archiveResult n env = .nil) (h2 : buildResult host tag n env = .nil) :
    Extends [createTarballArgs (tempDirName n), buildFromTarballRemotelyArgs host tag]
      [(serverAddr, tempDirName n)] (worldAtTransfer host tag n env).trace := by
  have c1 := (execCommand_nil_iff _ _ _).1 h1
  have c2 := (execCommand_nil_iff _ _ _).1 h2
  have s0 : started (worldAtArchive n).trace = [] := by
    simp [worldAtArchive, World.emit, World.addFile, World.initial, started]
  have s1 : started (worldAtBuild n env).trace = [createTarballArgs (tempDirName n)] := by
    have h := started_execCommand (createTarballArgs (tempDirName n)) env.tar (worldAtArchive n)
    rw [s0, c1.1, c1.2.1] at h
    simp only [worldAtBuild, createTarball, trace_emit, started, List.filterMap_append]
    simp only [started] at h
    rw [h]
    rfl
  refine ⟨⟨[], ?_⟩, ?_⟩
  · rw [worldAtTransfer, buildFromTarballRemotely, started_execCommand, s1, c2.1, c2.2.1]
    rfl
  · rw [worldAtTransfer, buildFromTarballRemotely, servers_execCommand, servers_worldAtBuild]

/-- C8: for every host, tag and scratch directory, in every run in which the
archive and the build stage run to their end and return `nil` (the content
server serving throughout), the tunnel build command started by `main`, the
content server launched by `main` and the archive command started by `main`
fit together: the reverse-tunnel argument is `P:A:Q` with `P` the port of the
build-context URL, whose host is the loopback address; the forward host `A`
resolves to the address the content server listens on and `Q` is the port it
listens on; the URL path, resolved in the directory the server serves, is the
file the archive command writes; and the image is tagged with the caller's
tag.  `A` is the name `localhost`, so the only assumption is that the local
resolver maps `localhost` to `127.0.0.1`. -/
theorem tunnel_matches_server_and_bundle (resolve : String → String) (host tag : String)
    (n : Nat) (env : Env) (hres : resolve "localhost" = "127.0.0.1")
    (hhost : host ≠ "") (htag : tag ≠ "") (hdir : env.mkdirTemp = some n)
    (hserve : env.listen = none)
    (h1 : archiveResult n env = .nil) (h2 : buildResult host tag n env = .nil) :
    TunnelConsistent resolve tag (runTrace (.ok host tag) env) := by
  have hx : Extends [createTarballArgs (tempDirName n), buildFromTarballRemotelyArgs host tag]
      [(serverAddr, tempDirName n)] (runTrace (.ok host tag) env) := by
    unfold runTrace
    rw [runProcess_eq host tag n env hhost htag hdir hserve, afterStage_nil _ _ _ h1,
      afterStage_nil _ _ _ h2]
    have h0 := extends_worldAtTransfer host tag n env h1 h2
    have h3 := extends_copyImageFromRemote _ _ host tag (tempDirName n) env.createImage
      env.save _ h0
    refine extends_afterStage _ _ _ _ _ h3 ?_
    have h4 := extends_execCommand _ _ (loadCopiedImageTarballArgs (tempDirName n)) env.load
      _ h3
    refine extends_afterStage _ _ _ _ _ h4 ?_
    exact extends_removeAll _ _ _ _ h4
  obtain ⟨⟨rest, hs⟩, hv⟩ := hx
  refine ⟨createTarballArgs (tempDirName n), buildFromTarballRemotelyArgs host tag, rest,
    serverAddr, tempDirName n, _, "127.0.0.1", "8080", ?_, hv, tunnelView_build host tag,
    by decide, rfl, rfl, hres, rfl, ?_, rfl⟩
  · simpa using hs
  · simp [createTarballArgs]

/-- Scenario A, with a resolver that knows `localhost`: the commands and the
server of the run fit together. -/
theorem tunnel_matches_server_and_bundle_witness :
    TunnelConsistent (fun s => if s = "localhost" then "127.0.0.1" else s) "myapp:test"
      (runTrace (.ok "build01" "myapp:test") (Env.allOk 42)) :=
  tunnel_matches_server_and_bundle (fun s => if s = "localhost" then "127.0.0.1" else s)
    "build01" "myapp:test" 42 (Env.allOk 42) (by decide) (by decide) (by decide) rfl rfl
    (by decide) (by decide)

/-! ## Cancellation -/

/-- A stage entered with the context done: the relay echoes the command line,
starts nothing and returns the start error. -/
theorem execCommand_ctxDone (args : List String) (e : RelayEnv) (w : World)
    (h : w.ctxDone = true) :
    execCommand args e w = (w.emit (.echo ("$ " ++ joinArgs args)), .err .ptyStart) := by
  simp [execCommand, World.emit, h]

/-- The transfer stage, which runs its command through `cmd.Run()`, does what
the specification asks of a cancellation: with the interrupt arriving while
`docker save` runs, nothing is echoed, started or created after it and the
process exits with status 1. -/
theorem cancel_during_transfer (host tag : String) (n : Nat) (env : Env)
    (hhost : host ≠ "") (htag : tag ≠ "") (hdir : env.mkdirTemp = some n)
    (hserve : env.listen = none)
    (hp1 : env.tar.ptyStartOk = true) (hm1 : env.tar.makeRawOk = true)
    (hi1 : env.tar.interrupt = false)
    (hp2 : env.build.ptyStartOk = true) (hm2 : env.build.makeRawOk = true)
    (hi2 : env.build.interrupt = false)
    (hc : env.createImage = true) (hp : env.save.startOk = true)
    (hi : env.save.interrupt = true) :
    started (afterInterrupt (runTrace (.ok host tag) env)) = [] ∧
    echoes (afterInterrupt (runTrace (.ok host tag) env)) = [] ∧
    created (afterInterrupt (runTrace (.ok host tag) env)) = [] ∧
    runExit (.ok host tag) env = .osExit 1 := by
  obtain ⟨md, ⟨tp, tm, tr, ts, ti⟩, ls, ⟨bp, bm, br, bs, bi⟩, ci, ⟨sp, ss, si⟩, l⟩ := env
  simp only at hp1 hm1 hi1 hp2 hm2 hi2 hc hp hi hdir hserve
  subst hp1 hm1 hi1 hp2 hm2 hi2 hc hp hi hdir hserve
  cases tr <;> cases br <;>
    simp [runTrace, runExit, runProcess, init, hhost, htag, FlagParse.host, FlagParse.tag,
      main, mainGoroutine, afterStage, createTarball, execCommand, buildFromTarballRemotely,
      copyImageFromRemote, World.emit, World.addFile, World.initial, afterInterrupt, echoes,
      started, created]

/-- C10 (the code departs from it): with the interrupt arriving while the
remote build runs, the relay returns `nil` for the killed command, so `main`
goes on to the transfer stage, which creates `image.tar` and echoes its
command line before the start of its command is refused; and with the
interrupt arriving while `docker load` runs, `main` returns and the process
exits with status 0. -/
theorem interrupt_during_relay_does_not_stop_main :
    ¬ ShortCircuits (flagParse ["-host", "build01", "-tag", "myapp:test"])
      { Env.allOk 42 with
        build := { RelayEnv.exits 0 with status := .signaled, interrupt := true } } ∧
    echoes (afterInterrupt (runTrace (flagParse ["-host", "build01", "-tag", "myapp:test"])
      { Env.allOk 42 with
        build := { RelayEnv.exits 0 with status := .signaled, interrupt := true } })) =
      ["$ ssh build01 docker save myapp:test > /tmp/docker-ssh-build-42/image.tar"] ∧
    created (afterInterrupt (runTrace (flagParse ["-host", "build01", "-tag", "myapp:test"])
      { Env.allOk 42 with
        build := { RelayEnv.exits 0 with status := .signaled, interrupt := true } })) =
      ["/tmp/docker-ssh-build-42/image.tar"] ∧
    ¬ ShortCircuits (flagParse ["-host", "build01", "-tag", "myapp:test"])
      { Env.allOk 42 with
        load := { RelayEnv.exits 0 with status := .signaled, interrupt := true } } ∧
    (runExit (flagParse ["-host", "build01", "-tag", "myapp:test"])
      { Env.allOk 42 with
        load := { RelayEnv.exits 0 with status := .signaled, interrupt := true } }).status =
      0 := by
  unfold ShortCircuits
  decide

/-! ## The content server failing -/

/-- With `127.0.0.1:8080` taken and every command succeeding, the goroutine of
the content server ends the process while the build command is being launched:
exit status 1, two command lines echoed, the scratch directory left behind. -/
theorem content_server_failure_ends_process :
    (runProcess (flagParse ["-host", "build01", "-tag", "myapp:test"])
      { Env.allOk 42 with listen := some 1 } World.initial).2.status = 1 ∧
    echoes (runProcess (flagParse ["-host", "build01", "-tag", "myapp:test"])
      { Env.allOk 42 with listen := some 1 } World.initial).1.trace =
      ["$ tar -czf /tmp/docker-ssh-build-42/ctx.tar.gz .",
       "$ ssh -t -R 50218:localhost:8080 build01 docker build -t myapp:test http://127.0.0.1:50218/ctx.tar.gz"] ∧
    tempDirName 42 ∈ (runProcess (flagParse ["-host", "build01", "-tag", "myapp:test"])
      { Env.allOk 42 with listen := some 1 } World.initial).1.files := by
  decide

end DockerSshBuild
